import Mathlib

/-!
Shallow embedding of the Real-Time Weather Chatbot (FastAPI) repository.

The repository holds two iterations of a websocket weather chatbot:
`main.py` (variant A: keyword gate, explicit city extraction, response
synthesis) and `main1.py` (variant B: OpenAI function calling with a
`get_current_weather` tool and a persistence sink).

External effects are modelled explicitly:
- a language-model call is an oracle value `Except Unit _` supplied by an
  environment record (`.error` stands for a raised provider exception);
- the weather HTTP GET is an oracle `String → Except Unit HttpResponse`
  (`.error` a transport fault, otherwise a status code and parsed body);
- the persistence sink and provider invocations are recorded as events in
  a trace returned next to each reply, so that claims about which
  components run (and with which payloads) are statements about the trace.

Python specifics kept by the embedding: `str.strip` is `pyStrip`,
`str.lower` is `pyLower`, the truthiness tests `if not city:` and
`if assistant_message.tool_calls:` are the emptiness tests of the
corresponding string / list.
-/

/-- Parsed weather payload, with exactly the fields the code reads
(`location.name`, `location.country`, `current.temp_c`, `current.temp_f`,
`current.condition.text`, `current.humidity`, `current.wind_kph`,
`current.last_updated`). Field values are kept as their rendered text. -/
structure WeatherData where
  location_name : String
  location_country : String
  temp_c : String
  temp_f : String
  condition_text : String
  humidity : String
  wind_kph : String
  last_updated : String
deriving DecidableEq, Repr

/-- An HTTP response from the weather provider: a status code and the
body parsed as JSON (parsing is folded into the transport oracle; a body
that fails to parse is a transport fault). -/
structure HttpResponse where
  status_code : Nat
  body : WeatherData
deriving DecidableEq, Repr

/-- Python `str.lower()` on the ASCII range, as the code applies it. -/
def pyLower (s : String) : String :=
  String.mk (s.data.map Char.toLower)

/-- Python `str.strip()`: drop leading and trailing whitespace. -/
def pyStrip (s : String) : String :=
  String.mk (((s.data.dropWhile Char.isWhitespace).reverse.dropWhile
    Char.isWhitespace).reverse)

/-- Does `pat` occur as a contiguous prefix of `s`? -/
def charsPrefix : List Char → List Char → Bool
  | [], _ => true
  | _ :: _, [] => false
  | a :: as, b :: bs => a == b && charsPrefix as bs

/-- Does `pat` occur as a contiguous sublist of `s`? -/
def charsContain (pat s : List Char) : Bool :=
  match s with
  | [] => charsPrefix pat []
  | _ :: rest => charsPrefix pat s || charsContain pat rest

/-- Python `pat in s` on strings: substring containment. -/
def pyContains (s pat : String) : Bool :=
  charsContain pat.data s.data

namespace VariantA

/-- The persona prompt of `main.py` (SYSTEM_PROMPT). -/
def SYSTEM_PROMPT : String :=
  "You are a friendly and helpful weather assistant. Your primary focus is on weather-related information and queries.\nYou can engage in basic greetings and pleasantries, but always try to steer the conversation towards weather-related topics.\nIf a user asks about non-weather topics, politely explain that you\u0027re a weather specialist and can only help with weather-related queries.\nWhen users ask about weather, use the provided real-time weather data in your responses."

/-- The keyword gate list of `websocket_endpoint` in `main.py`. -/
def weatherKeywords : List String :=
  ["weather", "temperature", "rain", "wind", "humid", "forecast",
   "climate", "cold", "hot", "celsius", "fahrenheit"]

/-- The classify step: `any(word in message.lower() for word in [...])`. -/
def hasWeatherKeyword (message : String) : Bool :=
  weatherKeywords.any (fun w => pyContains (pyLower message) w)

/-- The per-message environment of variant A: the extraction model reply,
the synthesis model reply as a function of the context block, and the
weather provider transport. `.error` stands for a raised exception. -/
structure EnvA where
  extractLLM : Except Unit String
  synthLLM : String → Except Unit String
  weather : String → Except Unit HttpResponse

/-- Trace events of variant A: which pipeline components ran, with which
payloads. -/
inductive EventA
  | extractCity
  | fetchWeather (city : String)
  | synthesize (message : String) (weather : Option WeatherData)
deriving DecidableEq, Repr

/-- Embedding of `get_weather_data` in `main.py`: status 200 returns the
parsed body, any other status or a transport fault returns `none`. -/
def get_weather_data (resp : Except Unit HttpResponse) : Option WeatherData :=
  match resp with
  | .error _ => none
  | .ok r => if r.status_code = 200 then some r.body else none

/-- Embedding of `extract_city_from_message` in `main.py`: strip the
model output; a case-insensitive `"none"` means absence; a provider
fault is caught and also returns absence. -/
def extract_city_from_message (llm : Except Unit String) : Option String :=
  match llm with
  | .error _ => none
  | .ok content =>
    let city := pyStrip content
    if pyLower city = "none" then none else some city

/-- The context block built by `generate_weather_response`: the raw user
message, then (when a snapshot is present) the fixed-format field list. -/
def buildContext (message : String) (weather_data : Option WeatherData) : String :=
  let base := "User message: " ++ message ++ "\n"
  match weather_data with
  | none => base
  | some wd => base
      ++ "\nCurrent weather data:\nCity: " ++ wd.location_name
      ++ "\nCountry: " ++ wd.location_country
      ++ "\nTemperature: " ++ wd.temp_c ++ "°C (" ++ wd.temp_f ++ "°F)"
      ++ "\nCondition: " ++ wd.condition_text
      ++ "\nHumidity: " ++ wd.humidity ++ "%"
      ++ "\nWind: " ++ wd.wind_kph ++ " km/h"
      ++ "\nLast Updated: " ++ wd.last_updated ++ "\n"

/-- The fixed apology of `generate_weather_response` on a provider fault. -/
def synthApology : String :=
  "I apologize, but I\u0027m having trouble generating a response. Could you please try again?"

/-- Embedding of `generate_weather_response` in `main.py`: call the model
on the context block; strip its output; a fault returns the apology. -/
def generate_weather_response (message : String) (weather_data : Option WeatherData)
    (llm : String → Except Unit String) : String :=
  match llm (buildContext message weather_data) with
  | .ok content => pyStrip content
  | .error _ => synthApology

/-- The fixed clarification sent when no city could be determined. -/
def clarification : String :=
  "I\u0027m not sure which city you\u0027re asking about. Could you please specify a city name?"

/-- The fixed failure reply of the weather-fetch step, with the city
substituted verbatim. -/
def couldNotFind (city : String) : String :=
  "I\u0027m sorry, but I couldn\u0027t find weather data for " ++ city
    ++ ". Could you please check the city name and try again?"

/-- The body of the `while True` loop of `websocket_endpoint` in
`main.py`, for one received message: the reply sent back, next to the
trace of pipeline components invoked. `if not city:` is true for both
absence and the empty string. -/
def processMessage (env : EnvA) (message : String) : String × List EventA :=
  if !hasWeatherKeyword message then
    (generate_weather_response message none env.synthLLM,
     [EventA.synthesize message none])
  else
    match extract_city_from_message env.extractLLM with
    | none => (clarification, [EventA.extractCity])
    | some city =>
      if city.isEmpty then (clarification, [EventA.extractCity])
      else
        match get_weather_data (env.weather city) with
        | some wd =>
          (generate_weather_response message (some wd) env.synthLLM,
           [EventA.extractCity, EventA.fetchWeather city,
            EventA.synthesize message (some wd)])
        | none =>
          (couldNotFind city, [EventA.extractCity, EventA.fetchWeather city])

/-- The receive/dispatch/send loop of `websocket_endpoint` in `main.py`:
each received message, paired with that message's provider oracles, yields
exactly the text passed to `send_text`. -/
def websocket_endpoint (inputs : List (String × EnvA)) : List String :=
  inputs.map (fun p => (processMessage p.2 p.1).1)

end VariantA

namespace VariantB

/-- The persona prompt of `main1.py` (SYSTEM_PROMPT). -/
def SYSTEM_PROMPT : String :=
  "You are a friendly and helpful weather assistant. Your primary focus is on weather-related information and queries.\nYou can engage in basic greetings and pleasantries, but always try to steer the conversation towards weather-related topics.\nUse the available functions to fetch real-time weather data when needed."

/-- One tool invocation request inside the model reply: the call id, the
function name and the raw JSON argument text. -/
structure ToolCall where
  id : String
  name : String
  arguments : String
deriving DecidableEq, Repr

/-- The model reply of the first completion call: the requested tool
calls (an empty list is Python-falsy `tool_calls`) and the direct text. -/
structure AssistantMessage where
  tool_calls : List ToolCall
  content : String
deriving DecidableEq, Repr

/-- The content passed back in a tool-role message: `json.dumps` of the
raw weather payload, or of the error object built on a failed fetch.
Distinct constructors embed the distinct serialized JSON shapes. -/
inductive ToolOutput
  | snapshot (wd : WeatherData)
  | errorObj (text : String)
deriving DecidableEq, Repr

/-- A role-tagged entry of the message list sent to the model. -/
inductive ChatMessage
  | system (content : String)
  | user (content : String)
  | assistant (m : AssistantMessage)
  | tool (tool_call_id : String) (content : ToolOutput)
deriving DecidableEq, Repr

/-- Trace events of variant B: each model completion call with the exact
message list and whether a tool schema was declared, each weather-provider
fetch, and each persistence-sink write of a weather payload. -/
inductive EventB
  | llmCall (msgs : List ChatMessage) (withTools : Bool)
  | fetchWeather (city : String)
  | storeWeather (city : String) (wd : WeatherData)
deriving DecidableEq, Repr

/-- The per-message environment of variant B: the first completion reply,
the `json.loads` of each tool call's argument text yielding the requested
city (`.error` a parse exception), the weather transport, and the second
completion reply. -/
structure EnvB where
  firstLLM : Except Unit AssistantMessage
  parseArgs : String → Except Unit String
  weather : String → Except Unit HttpResponse
  secondLLM : Except Unit String

/-- Embedding of `get_weather_data` in `main1.py`: as in variant A, but a
success also writes the raw payload to the persistence sink
(`db.store_weather_data`) before returning; the sink write is the event
list returned next to the result. -/
def get_weather_data (city : String) (resp : Except Unit HttpResponse) :
    Option WeatherData × List EventB :=
  match resp with
  | .error _ => (none, [])
  | .ok r =>
    if r.status_code = 200 then (some r.body, [EventB.storeWeather city r.body])
    else (none, [])

/-- One entry of `function_responses`: a tool call id and its output. -/
structure FunctionResponse where
  tool_call_id : String
  output : ToolOutput
deriving DecidableEq, Repr

/-- The fixed apology of `process_message` on any fault its handler
catches. -/
def apology : String :=
  "I apologize, but I\u0027m having trouble processing your request. Could you please try again?"

/-- The tool-call loop of `process_message` in `main1.py`: for each call
named `get_current_weather`, parse its arguments, fetch the weather, and
append a snapshot or an error object naming the city; other names are
skipped. A parse exception aborts the whole message (Python raises out of
the loop); events up to that point are kept in the trace. -/
def processToolCalls (env : EnvB) : List ToolCall →
    Except Unit (List FunctionResponse) × List EventB
  | [] => (Except.ok [], [])
  | tc :: rest =>
    if tc.name = "get_current_weather" then
      match env.parseArgs tc.arguments with
      | .error e => (Except.error e, [])
      | .ok city =>
        let w := get_weather_data city (env.weather city)
        let fr : FunctionResponse :=
          match w.1 with
          | some wd => ⟨tc.id, ToolOutput.snapshot wd⟩
          | none =>
            ⟨tc.id, ToolOutput.errorObj
              ("Could not fetch weather data for " ++ city)⟩
        let restR := processToolCalls env rest
        (match restR.1 with
         | .ok frs => Except.ok (fr :: frs)
         | .error e => Except.error e,
         EventB.fetchWeather city :: w.2 ++ restR.2)
    else
      processToolCalls env rest

/-- The message list of the first completion call. -/
def initMsgs (message : String) : List ChatMessage :=
  [ChatMessage.system SYSTEM_PROMPT, ChatMessage.user message]

/-- The message list of the second completion call: system prompt, the
user message, the assistant tool-call message, then one tool-role entry
per function response. -/
def secondMsgs (message : String) (am : AssistantMessage)
    (frs : List FunctionResponse) : List ChatMessage :=
  initMsgs message ++ [ChatMessage.assistant am]
    ++ frs.map (fun fr => ChatMessage.tool fr.tool_call_id fr.output)

/-- Embedding of `process_message` in `main1.py`: first completion with
the tool schema; if tool calls were requested, run them and make a second
completion (no tool schema) on the extended message list; any exception
in the body is caught and replaced by the fixed apology. -/
def process_message (env : EnvB) (message : String) : String × List EventB :=
  let ev1 := EventB.llmCall (initMsgs message) true
  match env.firstLLM with
  | .error _ => (apology, [ev1])
  | .ok am =>
    if am.tool_calls.isEmpty then (am.content, [ev1])
    else
      let tr := processToolCalls env am.tool_calls
      match tr.1 with
      | .error _ => (apology, ev1 :: tr.2)
      | .ok frs =>
        let msgs2 := secondMsgs message am frs
        let ev2 := EventB.llmCall msgs2 false
        match env.secondLLM with
        | .error _ => (apology, ev1 :: tr.2 ++ [ev2])
        | .ok content => (content, ev1 :: tr.2 ++ [ev2])

/-- The receive/dispatch/send loop of `websocket_endpoint` in `main1.py`:
each received message, with that message's provider oracles, yields
exactly the text passed to `send_text` (the persistence-sink writes of
the handler are out of scope; the sink write inside the weather fetch is
in each message's trace). -/
def websocket_endpoint (inputs : List (String × EnvB)) : List String :=
  inputs.map (fun p => (process_message p.2 p.1).1)

/-- The model completion calls of a trace, each with its message list and
whether a tool schema was declared. -/
def llmCallsOf (evs : List EventB) : List (List ChatMessage × Bool) :=
  evs.filterMap (fun e => match e with
    | .llmCall msgs withTools => some (msgs, withTools)
    | _ => none)

end VariantB

/-! Helper lemmas about substring containment. -/

theorem charsPrefix_self_append (pat rest : List Char) :
    charsPrefix pat (pat ++ rest) = true := by
  induction pat with
  | nil => rfl
  | cons a as ih => simp [charsPrefix, ih]

theorem charsContain_nil (s : List Char) : charsContain [] s = true := by
  cases s <;> rfl

theorem charsContain_self_append (pat post : List Char) :
    charsContain pat (pat ++ post) = true := by
  cases pat with
  | nil => exact charsContain_nil post
  | cons a as =>
    simp only [charsContain, List.cons_append, Bool.or_eq_true]
    exact Or.inl (charsPrefix_self_append (a :: as) post)

theorem charsContain_middle (pat pre post : List Char) :
    charsContain pat (pre ++ (pat ++ post)) = true := by
  induction pre with
  | nil => simpa using charsContain_self_append pat post
  | cons b bs ih => simp [charsContain, ih]

theorem pyContains_middle (pre pat post : String) :
    pyContains (pre ++ pat ++ post) pat = true := by
  simp [pyContains, String.append_assoc]
  exact charsContain_middle pat.data pre.data post.data

/-! Theorems settling the claims. -/

/-- C1: for every sequence of messages received on one connection, each
connection-handler variant produces exactly one outgoing reply per
incoming message, for any behaviour of the providers (the oracles range
over all values, faults included); and when a pipeline stage fails the
reply is the fixed user-facing apology string (shown here for a failing
synthesis call in variant A and a failing first completion in variant B;
the remaining degraded replies are the fixed strings of C4 and C5). -/
theorem claim_C1_one_reply_per_message
    (inputsA : List (String × VariantA.EnvA))
    (inputsB : List (String × VariantB.EnvB)) :
    (VariantA.websocket_endpoint inputsA).length = inputsA.length
    ∧ (VariantB.websocket_endpoint inputsB).length = inputsB.length
    ∧ (∀ (env : VariantA.EnvA) (message : String),
        VariantA.hasWeatherKeyword message = false →
        env.synthLLM (VariantA.buildContext message none) = Except.error () →
        (VariantA.processMessage env message).1 = VariantA.synthApology)
    ∧ (∀ (env : VariantB.EnvB) (message : String),
        env.firstLLM = Except.error () →
        (VariantB.process_message env message).1 = VariantB.apology) := by
  refine ⟨?_, ?_, ?_, ?_⟩
  · simp [VariantA.websocket_endpoint]
  · simp [VariantB.websocket_endpoint]
  · intro env message hk hs
    simp [VariantA.processMessage, hk, VariantA.generate_weather_response, hs]
  · intro env message hf
    simp [VariantB.process_message, hf]

/-- C3: in variant A, a message containing none of the fixed weather
keywords (case-insensitive substring test) is answered by the Response
Synthesizer invoked with no weather data, and the trace holds neither a
City Extractor nor a Weather Provider Client invocation. -/
theorem claim_C3_no_keyword_is_general_conversation
    (env : VariantA.EnvA) (message : String)
    (h : VariantA.hasWeatherKeyword message = false) :
    VariantA.processMessage env message =
      (VariantA.generate_weather_response message none env.synthLLM,
       [VariantA.EventA.synthesize message none]) := by
  simp [VariantA.processMessage, h]

/-- Concrete variant A environment used by the witnesses: the extraction
model answers the literal `"None"`, the synthesis model echoes its
context, the weather transport faults. -/
def envA0 : VariantA.EnvA :=
  ⟨Except.ok "None", fun ctx => Except.ok ("Echo: " ++ ctx), fun _ => Except.error ()⟩

/-- Witness for C3 at the concrete message `"hi there"`. -/
theorem claim_C3_witness :
    VariantA.processMessage envA0 "hi there" =
      (VariantA.generate_weather_response "hi there" none envA0.synthLLM,
       [VariantA.EventA.synthesize "hi there" none]) :=
  claim_C3_no_keyword_is_general_conversation envA0 "hi there" (by decide)

/-- C4: in variant A, when the keyword gate passes but the City Extractor
reports absence, the reply is exactly the fixed clarification string and
the trace holds no Weather Provider Client invocation. -/
theorem claim_C4_absent_city_clarifies
    (env : VariantA.EnvA) (message : String)
    (hk : VariantA.hasWeatherKeyword message = true)
    (he : VariantA.extract_city_from_message env.extractLLM = none) :
    VariantA.processMessage env message =
      (VariantA.clarification, [VariantA.EventA.extractCity]) := by
  simp [VariantA.processMessage, hk, he]

/-- Witness for C4: the extraction model answers `"None"` on the message
`"weather"`. -/
theorem claim_C4_witness :
    VariantA.processMessage envA0 "weather" =
      (VariantA.clarification, [VariantA.EventA.extractCity]) :=
  claim_C4_absent_city_clarifies envA0 "weather" (by decide) (by decide)

/-- C5: in variant A, when an extracted (non-empty) city's weather fetch
fails, the reply is the fixed could-not-find message with the city
substituted verbatim — in particular it contains the literal city name —
and the trace holds no Response Synthesizer invocation at all (so none
with a snapshot). -/
theorem claim_C5_fetch_failure_names_city
    (env : VariantA.EnvA) (message city : String)
    (hk : VariantA.hasWeatherKeyword message = true)
    (he : VariantA.extract_city_from_message env.extractLLM = some city)
    (hne : city.isEmpty = false)
    (hw : VariantA.get_weather_data (env.weather city) = none) :
    VariantA.processMessage env message =
      (VariantA.couldNotFind city,
       [VariantA.EventA.extractCity, VariantA.EventA.fetchWeather city])
    ∧ pyContains (VariantA.couldNotFind city) city = true := by
  constructor
  · simp [VariantA.processMessage, hk, he, hne, hw]
  · exact pyContains_middle _ city _

/-- Concrete variant A environment whose extraction model answers
`"Paris"` and whose weather transport faults. -/
def envA1 : VariantA.EnvA :=
  ⟨Except.ok "Paris", fun ctx => Except.ok ctx, fun _ => Except.error ()⟩

/-- Witness for C5 at the city `"Paris"`. -/
theorem claim_C5_witness :
    VariantA.processMessage envA1 "weather" =
      (VariantA.couldNotFind "Paris",
       [VariantA.EventA.extractCity, VariantA.EventA.fetchWeather "Paris"])
    ∧ pyContains (VariantA.couldNotFind "Paris") "Paris" = true :=
  claim_C5_fetch_failure_names_city envA1 "weather" "Paris"
    (by decide) (by decide) (by decide) rfl

/-- C10: in variant A, when the extraction model returns pure whitespace
the extractor yields the empty string (not absence), yet the orchestrator
treats it as absence through the Python truthiness test `if not city:`:
the reply is the fixed clarification prompt and the Weather Provider
Client is never invoked. -/
theorem claim_C10_empty_city_treated_as_absence
    (env : VariantA.EnvA) (message content : String)
    (hk : VariantA.hasWeatherKeyword message = true)
    (hc : env.extractLLM = Except.ok content)
    (hs : pyStrip content = "") :
    VariantA.extract_city_from_message env.extractLLM = some ""
    ∧ VariantA.processMessage env message =
        (VariantA.clarification, [VariantA.EventA.extractCity]) := by
  have h1 : VariantA.extract_city_from_message env.extractLLM = some "" := by
    rw [hc]
    simp [VariantA.extract_city_from_message, hs]
    decide
  refine ⟨h1, ?_⟩
  have hemp : "".isEmpty = true := rfl
  simp [VariantA.processMessage, hk, h1, hemp]

/-- Concrete variant A environment whose extraction model returns pure
whitespace. -/
def envA2 : VariantA.EnvA :=
  ⟨Except.ok "   ", fun ctx => Except.ok ctx, fun _ => Except.error ()⟩

/-- Witness for C10 at the whitespace model output `"   "`. -/
theorem claim_C10_witness :
    VariantA.extract_city_from_message envA2.extractLLM = some ""
    ∧ VariantA.processMessage envA2 "weather" =
        (VariantA.clarification, [VariantA.EventA.extractCity]) :=
  claim_C10_empty_city_treated_as_absence envA2 "weather" "   "
    (by decide) rfl (by decide)

/-- C6: in both variants, a fetch with success status returns the parsed
body, and any non-success status or transport fault returns absence; the
total embedding has no other outcome, so no exception reaches the caller. -/
theorem claim_C6_fetch_never_raises (r : HttpResponse) (e : Unit) (city : String) :
    VariantA.get_weather_data (Except.ok r)
      = (if r.status_code = 200 then some r.body else none)
    ∧ VariantA.get_weather_data (Except.error e) = none
    ∧ (VariantB.get_weather_data city (Except.ok r)).1
      = (if r.status_code = 200 then some r.body else none)
    ∧ (VariantB.get_weather_data city (Except.error e)).1 = none := by
  refine ⟨rfl, rfl, ?_, rfl⟩
  by_cases h : r.status_code = 200 <;> simp [VariantB.get_weather_data, h]

/-- C7: the City Extractor returns the model output stripped of
surrounding whitespace, with absence exactly on a case-insensitive match
of "none"; a provider fault also returns absence instead of propagating. -/
theorem claim_C7_extractor_postprocessing (content : String) (e : Unit) :
    VariantA.extract_city_from_message (Except.ok content)
      = (if pyLower (pyStrip content) = "none" then none
         else some (pyStrip content))
    ∧ VariantA.extract_city_from_message (Except.error e) = none :=
  ⟨rfl, rfl⟩

/-- C8: in iteration 2, a fetch that returns a snapshot has written
exactly that raw payload to the Persistence Sink inside the fetch (so
before the snapshot reaches the caller), and a failed fetch has written
nothing. -/
theorem claim_C8_sink_forward (city : String) (resp : Except Unit HttpResponse) :
    (∀ wd, (VariantB.get_weather_data city resp).1 = some wd →
      (VariantB.get_weather_data city resp).2
        = [VariantB.EventB.storeWeather city wd])
    ∧ ((VariantB.get_weather_data city resp).1 = none →
      (VariantB.get_weather_data city resp).2 = []) := by
  cases resp with
  | error e => exact ⟨fun wd h => by simp [VariantB.get_weather_data] at h, fun _ => rfl⟩
  | ok r =>
    by_cases h : r.status_code = 200
    · refine ⟨fun wd hwd => ?_, fun hnone => ?_⟩
      · simp [VariantB.get_weather_data, h] at hwd ⊢
        rw [hwd]
      · simp [VariantB.get_weather_data, h] at hnone
    · exact ⟨fun wd hwd => by simp [VariantB.get_weather_data, h] at hwd,
        fun _ => by simp [VariantB.get_weather_data, h]⟩

/-- The events emitted inside a weather fetch are sink writes only: no
model completion call occurs there. -/
theorem llmCallsOf_get_weather_data (city : String) (resp : Except Unit HttpResponse) :
    VariantB.llmCallsOf (VariantB.get_weather_data city resp).2 = [] := by
  cases resp with
  | error e => rfl
  | ok r =>
    by_cases h : r.status_code = 200 <;>
      simp [VariantB.get_weather_data, h, VariantB.llmCallsOf]

/-- The tool-call loop makes no model completion call: its trace holds
only fetch and sink events. -/
theorem llmCallsOf_processToolCalls (env : VariantB.EnvB)
    (calls : List VariantB.ToolCall) :
    VariantB.llmCallsOf (VariantB.processToolCalls env calls).2 = [] := by
  induction calls with
  | nil => rfl
  | cons tc rest ih =>
    by_cases h : tc.name = "get_current_weather"
    · cases hp : env.parseArgs tc.arguments with
      | error e => simp [VariantB.processToolCalls, h, hp, VariantB.llmCallsOf]
      | ok city =>
        simp [VariantB.processToolCalls, h, hp, VariantB.llmCallsOf,
          List.filterMap_append] at ih ⊢
        exact ⟨(by simpa [VariantB.llmCallsOf, List.filterMap_append]
          using llmCallsOf_get_weather_data city (env.weather city)), ih⟩
    · simpa [VariantB.processToolCalls, h] using ih

/-- One model completion event at the head of a trace. -/
theorem llmCallsOf_cons_llm (msgs : List VariantB.ChatMessage) (b : Bool)
    (l : List VariantB.EventB) :
    VariantB.llmCallsOf (VariantB.EventB.llmCall msgs b :: l)
      = (msgs, b) :: VariantB.llmCallsOf l := rfl

/-- The model completion events of a concatenated trace. -/
theorem llmCallsOf_append (l1 l2 : List VariantB.EventB) :
    VariantB.llmCallsOf (l1 ++ l2)
      = VariantB.llmCallsOf l1 ++ VariantB.llmCallsOf l2 := by
  simp [VariantB.llmCallsOf, List.filterMap_append]

/-- C9: in variant B, one message triggers at most two model completion
calls, and every completion call after the first declares no tool schema,
so at most one round of tool calls can occur per message and the second
call answer is returned without further tool dispatch. -/
theorem claim_C9_at_most_two_llm_calls (env : VariantB.EnvB) (message : String) :
    (VariantB.llmCallsOf (VariantB.process_message env message).2).length ≤ 2
    ∧ ∀ c ∈ (VariantB.llmCallsOf
        (VariantB.process_message env message).2).drop 1, c.2 = false := by
  unfold VariantB.process_message
  cases hf : env.firstLLM with
  | error e => simp [VariantB.llmCallsOf]
  | ok am =>
    by_cases ht : am.tool_calls.isEmpty
    · simp [ht, VariantB.llmCallsOf]
    · simp only [ht, Bool.false_eq_true, if_false]
      have hloop := llmCallsOf_processToolCalls env am.tool_calls
      cases hr : (VariantB.processToolCalls env am.tool_calls).1 with
      | error e =>
        rw [llmCallsOf_cons_llm, hloop]
        simp
      | ok frs =>
        cases hs : env.secondLLM with
        | error e =>
          dsimp only
          rw [llmCallsOf_append, llmCallsOf_cons_llm, hloop]
          simp [VariantB.llmCallsOf]
        | ok content =>
          dsimp only
          rw [llmCallsOf_append, llmCallsOf_cons_llm, hloop]
          simp [VariantB.llmCallsOf]

/-- C2: in variant B, when the model requests the `get_current_weather`
tool for city X, a successful fetch leads to a second model completion
call whose message list includes the tool-result snapshot, and only that
second call's answer becomes the reply; a failed fetch passes back a
structured error object naming X (never a snapshot) in the tool-role
entry of that second call. -/
theorem claim_C2_tool_roundtrip (env : VariantB.EnvB) (message : String)
    (am : VariantB.AssistantMessage) (tc : VariantB.ToolCall) (X : String)
    (h1 : env.firstLLM = Except.ok am) (h2 : am.tool_calls = [tc])
    (h3 : tc.name = "get_current_weather")
    (h4 : env.parseArgs tc.arguments = Except.ok X) :
    (∀ r : HttpResponse, env.weather X = Except.ok r → r.status_code = 200 →
      VariantB.process_message env message =
        ((match env.secondLLM with
          | Except.ok c => c
          | Except.error _ => VariantB.apology),
         [VariantB.EventB.llmCall (VariantB.initMsgs message) true,
          VariantB.EventB.fetchWeather X,
          VariantB.EventB.storeWeather X r.body,
          VariantB.EventB.llmCall
            (VariantB.secondMsgs message am
              [⟨tc.id, VariantB.ToolOutput.snapshot r.body⟩]) false])
        ∧ VariantB.ChatMessage.tool tc.id (VariantB.ToolOutput.snapshot r.body)
            ∈ VariantB.secondMsgs message am
                [⟨tc.id, VariantB.ToolOutput.snapshot r.body⟩])
    ∧ ((VariantB.get_weather_data X (env.weather X)).1 = none →
      VariantB.process_message env message =
        ((match env.secondLLM with
          | Except.ok c => c
          | Except.error _ => VariantB.apology),
         [VariantB.EventB.llmCall (VariantB.initMsgs message) true,
          VariantB.EventB.fetchWeather X,
          VariantB.EventB.llmCall
            (VariantB.secondMsgs message am
              [⟨tc.id, VariantB.ToolOutput.errorObj
                 ("Could not fetch weather data for " ++ X)⟩]) false])
        ∧ VariantB.ChatMessage.tool tc.id
            (VariantB.ToolOutput.errorObj
              ("Could not fetch weather data for " ++ X))
            ∈ VariantB.secondMsgs message am
                [⟨tc.id, VariantB.ToolOutput.errorObj
                   ("Could not fetch weather data for " ++ X)⟩]) := by
  constructor
  · intro r hw hs
    have hwd : VariantB.get_weather_data X (env.weather X)
        = (some r.body, [VariantB.EventB.storeWeather X r.body]) := by
      rw [hw]; simp [VariantB.get_weather_data, hs]
    have htr : VariantB.processToolCalls env [tc]
        = (Except.ok [⟨tc.id, VariantB.ToolOutput.snapshot r.body⟩],
           [VariantB.EventB.fetchWeather X, VariantB.EventB.storeWeather X r.body]) := by
      simp [VariantB.processToolCalls, h3, h4, hwd]
    constructor
    · unfold VariantB.process_message
      rw [h1]
      simp [h2, htr]
      cases hsec : env.secondLLM <;> simp
    · simp [VariantB.secondMsgs]
  · intro hn
    have hwd : VariantB.get_weather_data X (env.weather X)
        = (none, []) := by
      cases hww : env.weather X with
      | error e => rfl
      | ok r =>
        rw [hww] at hn
        by_cases hs : r.status_code = 200
        · simp [VariantB.get_weather_data, hs] at hn
        · simp [VariantB.get_weather_data, hs]
    have htr : VariantB.processToolCalls env [tc]
        = (Except.ok [⟨tc.id, VariantB.ToolOutput.errorObj
             ("Could not fetch weather data for " ++ X)⟩],
           [VariantB.EventB.fetchWeather X]) := by
      simp [VariantB.processToolCalls, h3, h4, hwd]
    constructor
    · unfold VariantB.process_message
      rw [h1]
      simp [h2, htr]
      cases hsec : env.secondLLM <;> simp
    · simp [VariantB.secondMsgs]

/-- Concrete weather payload used by the witnesses. -/
def wdParis : WeatherData :=
  ⟨"Paris", "France", "15.0", "59.0", "Sunny", "60", "10.2", "2025-01-01 10:00"⟩

/-- Concrete tool call requesting the weather of Paris. -/
def tcParis : VariantB.ToolCall :=
  ⟨"call_1", "get_current_weather", "\x7b\"city\": \"Paris\"\x7d"⟩

/-- Concrete first-completion reply carrying the one tool call. -/
def amParis : VariantB.AssistantMessage := ⟨[tcParis], ""⟩

/-- Concrete variant B environment: the model requests the Paris tool
call, the fetch succeeds with status 200, the second completion answers. -/
def envB0 : VariantB.EnvB :=
  ⟨Except.ok amParis, fun _ => Except.ok "Paris",
   fun _ => Except.ok ⟨200, wdParis⟩, Except.ok "It is sunny in Paris."⟩

/-- Witness for C2 on the concrete successful Paris round trip. -/
theorem claim_C2_witness :
    VariantB.process_message envB0 "What is the weather in Paris?" =
      ("It is sunny in Paris.",
       [VariantB.EventB.llmCall (VariantB.initMsgs "What is the weather in Paris?") true,
        VariantB.EventB.fetchWeather "Paris",
        VariantB.EventB.storeWeather "Paris" wdParis,
        VariantB.EventB.llmCall
          (VariantB.secondMsgs "What is the weather in Paris?" amParis
            [⟨tcParis.id, VariantB.ToolOutput.snapshot wdParis⟩]) false]) := by
  have h := (claim_C2_tool_roundtrip envB0 "What is the weather in Paris?"
    amParis tcParis "Paris" rfl rfl rfl rfl).1 ⟨200, wdParis⟩ rfl rfl
  exact h.1
